import Mathlib

set_option linter.unusedVariables false

/-!
Shallow embedding of jwp/jwmultithreaded.py (jameswenzel/LazyScripts).

The module offers four dispatch functions built on multiprocessing pools:
multithread, safe_multithread, multithread_failsafe, safe_multithread_failsafe,
plus a deprecated class jwmultithreaded carrying instance-method versions.

Modelling decisions, each justified at its definition:
- a worker function is a Lean function from an argument tuple (List of values)
  to Except: Except.error models the function raising a Python exception;
- a pool is recorded by the parameters it was constructed with (PoolHandle);
  pool teardown (the with-statement) has no effect on the returned value and
  is not modelled;
- scheduling is modelled sequentially in submission order, which is the
  deterministic abstraction of the ordered result collection the library
  guarantees (starmap returns results in input order; the failsafe loop
  collects handles in submission order).
-/

/-- The pool classes that occur in the source: multiprocessing.pool.Pool,
multiprocessing.pool.ThreadPool, and MyPool, the Pool subclass with
non-daemonic processes defined at the bottom of the file. -/
inductive PoolClass where
  | Pool
  | ThreadPool
  | MyPool
deriving DecidableEq, BEq, Repr

/-- Python runtime types that the source inspects: either a pool class object
itself, or the metaclass type, which is the type of every ordinary class
object. -/
inductive PyType where
  | poolClass (c : PoolClass)
  | metaType
deriving DecidableEq, BEq, Repr

/-- Python builtin type(c) applied to a class object c. Pool, ThreadPool and
MyPool declare no custom metaclass, so the runtime type of each of these class
OBJECTS is the metaclass type itself, never the class Pool. Consequently the
test type(pool_type) is Pool in the source evaluates to False for every pool
class passed as pool_type. -/
def typeOf (_c : PoolClass) : PyType := PyType.metaType

/-- Python exceptions as seen by a caller of this module: the ValueError that
pool construction raises for a non-positive worker count (the configuration
error of the spec taxonomy), a TypeError raised by the interpreter, or an
exception raised by the user-supplied worker function, carrying its payload. -/
inductive PyErr (ε : Type) where
  | configError
  | typeError (msg : String)
  | raised (e : ε)
deriving DecidableEq, Repr

/-- A constructed pool, recorded by its construction parameters: the class it
was built from, the requested number of workers, and the maxtasksperchild
value actually passed to the constructor (none when the keyword was omitted,
mirroring the Python default maxtasksperchild=None). -/
structure PoolHandle where
  cls : PoolClass
  processes : Int
  maxtasksperchild : Option Nat
deriving DecidableEq, Repr

/-- Calling a pool class: cls(processes) when mtpc is none, or
cls(processes, maxtasksperchild=m) when mtpc is some m. ThreadPool accepts no
maxtasksperchild keyword, so that call raises TypeError at argument binding;
otherwise Pool.__init__ raises ValueError (modelled configError) when
processes < 1, before any worker process or thread is spawned; otherwise the
pool is created with exactly the given parameters. -/
def constructPool (cls : PoolClass) (processes : Int) (mtpc : Option Nat) :
    Except (PyErr ε) PoolHandle :=
  if cls = PoolClass.ThreadPool ∧ mtpc.isSome then
    Except.error (PyErr.typeError "unexpected keyword argument maxtasksperchild")
  else if processes < 1 then
    Except.error PyErr.configError
  else
    Except.ok ⟨cls, processes, mtpc⟩

/-- pool.starmap(fn, args, chunksize=chunksize): applies fn to each argument
tuple, unpacked as positional arguments, and returns the list of results in
input order; the first exception raised by an invocation is re-raised by
starmap and no result list is produced. chunksize only sets how many
submissions are handed to a worker per scheduling round and does not affect
the value computed; in this sequential model the first raised error is the
first in input order. -/
def PoolHandle.starmap (pool : PoolHandle) (fn : List α → Except ε β)
    (args : List (List α)) (chunksize : Nat) : Except (PyErr ε) (List β) :=
  match args with
  | [] => Except.ok []
  | a :: rest =>
    match fn a with
    | Except.error e => Except.error (PyErr.raised e)
    | Except.ok b =>
      match pool.starmap fn rest chunksize with
      | Except.error e => Except.error e
      | Except.ok bs => Except.ok (b :: bs)

/-- Lines 26 to 31 of the source, the conditional pool construction inside
multithread: if type(pool_type) is Pool, construct
pool_type(processes, maxtasksperchild=maxtasksperchild), else construct
pool_type(processes). The comment in the source states the intent of
forwarding maxtasksperchild exactly for the process pool, but the test
type(pool_type) is Pool compares the METAclass of pool_type with Pool and is
always False, so the else branch always runs. -/
def multithreadPoolOf (pool_type : PoolClass) (processes : Int)
    (maxtasksperchild : Nat) : Except (PyErr ε) PoolHandle :=
  if typeOf pool_type == PyType.poolClass PoolClass.Pool then
    constructPool pool_type processes (some maxtasksperchild)
  else
    constructPool pool_type processes none

/-- def multithread(fn, args=[[]], pool_type=Pool, processes=cpus,
maxtasksperchild=1, chunksize=1): constructs a pool per multithreadPoolOf,
then helper(pool) returns pool.starmap(fn, args, chunksize=chunksize); the
with-statement tears the pool down and the results are returned. -/
def multithread (fn : List α → Except ε β) (args : List (List α))
    (pool_type : PoolClass) (processes : Int) (maxtasksperchild : Nat)
    (chunksize : Nat) : Except (PyErr ε) (List β) :=
  match multithreadPoolOf pool_type processes maxtasksperchild with
  | Except.error e => Except.error e
  | Except.ok pool => pool.starmap fn args chunksize

/-- def safe_multithread(fn, args=[[]], processes=cpus, chunksize=1): returns
multithread(fn, args, pool_type=ThreadPool, processes, chunksize); the
maxtasksperchild argument is not passed, so the callee uses its default 1. -/
def safe_multithread (fn : List α → Except ε β) (args : List (List α))
    (processes : Int) (chunksize : Nat) : Except (PyErr ε) (List β) :=
  multithread fn args PoolClass.ThreadPool processes 1 chunksize

/-- The collection loop of helper inside multithread_failsafe: the result
objects are walked in submission order; results.append(r.get()) appends the
value of a successful item, and the bare except clause swallows the exception
re-raised by r.get() for a failed item, so that item contributes nothing. -/
def collectResults : List (Except ε β) → List β
  | [] => []
  | Except.ok b :: rs => b :: collectResults rs
  | Except.error _ :: rs => collectResults rs

/-- def multithread_failsafe(fn, args=[[]], pool_type=Pool, processes=cpus,
chunksize=1, verbose=True): helper submits each arg on its own via
pool.apply_async(fn, arg) and collects with the loop modelled by
collectResults; apply_async evaluates fn on arg unpacked, so the submitted
outcomes are args.map fn. The chunksize parameter is accepted but never read
in the body, and verbose only controls the printing of the traceback block,
not the returned value. The two branches of the pool-construction conditional
are identical, both constructing pool_type(processes). -/
def multithread_failsafe (fn : List α → Except ε β) (args : List (List α))
    (pool_type : PoolClass) (processes : Int) (chunksize : Nat)
    (verbose : Bool) : Except (PyErr ε) (List β) :=
  if typeOf pool_type == PyType.poolClass PoolClass.Pool then
    match constructPool pool_type processes none with
    | Except.error e => Except.error e
    | Except.ok _pool => Except.ok (collectResults (args.map fn))
  else
    match constructPool pool_type processes none with
    | Except.error e => Except.error e
    | Except.ok _pool => Except.ok (collectResults (args.map fn))

/-- def safe_multithread_failsafe(fn, args=[[]], processes=cpus, chunksize=1,
verbose=True): returns multithread_failsafe(fn, args, pool_type=ThreadPool,
processes, verbose); its own chunksize parameter is not forwarded, so the
callee uses its default 1. -/
def safe_multithread_failsafe (fn : List α → Except ε β)
    (args : List (List α)) (processes : Int) (chunksize : Nat)
    (verbose : Bool) : Except (PyErr ε) (List β) :=
  multithread_failsafe fn args PoolClass.ThreadPool processes 1 verbose

/-- Method multithread of the deprecated class jwmultithreaded, lines 115 to
136: its body repeats the body of the free function multithread line for
line, including the same conditional pool construction; the instance state,
one boolean cache_updated that is never read, plays no part. -/
def jwmultithreaded.multithread (fn : List α → Except ε β)
    (args : List (List α)) (pool_type : PoolClass) (processes : Int)
    (maxtasksperchild : Nat) (chunksize : Nat) : Except (PyErr ε) (List β) :=
  match multithreadPoolOf pool_type processes maxtasksperchild with
  | Except.error e => Except.error e
  | Except.ok pool => pool.starmap fn args chunksize

/-- Method safe_multithread of the deprecated class: calls self.multithread
with pool_type=ThreadPool; maxtasksperchild is left at its default 1. -/
def jwmultithreaded.safe_multithread (fn : List α → Except ε β)
    (args : List (List α)) (processes : Int) (chunksize : Nat) :
    Except (PyErr ε) (List β) :=
  jwmultithreaded.multithread fn args PoolClass.ThreadPool processes 1 chunksize

/-- Method multithread_failsafe of the deprecated class, lines 147 to 179.
Its pool construction repeats lines 26 to 31 (with maxtasksperchild in the
dead first branch), but its helper differs from the free function: it runs
for r in pool.starmap_async(fn, args, chunksize=chunksize). starmap_async
returns one single AsyncResult object, which defines neither an iterator nor
indexed access, so the for statement itself raises TypeError before any
result is appended; the try/except inside the loop body is never reached. -/
def jwmultithreaded.multithread_failsafe (fn : List α → Except ε β)
    (args : List (List α)) (pool_type : PoolClass) (processes : Int)
    (maxtasksperchild : Nat) (chunksize : Nat) (verbose : Bool) :
    Except (PyErr ε) (List β) :=
  match multithreadPoolOf pool_type processes maxtasksperchild with
  | Except.error e => Except.error e
  | Except.ok _pool =>
    Except.error (PyErr.typeError "MapResult object is not iterable")

/-- Method safe_multithread_failsafe of the deprecated class: calls
self.multithread_failsafe with pool_type=ThreadPool and the given verbose;
maxtasksperchild and chunksize are left at their defaults 1. -/
def jwmultithreaded.safe_multithread_failsafe (fn : List α → Except ε β)
    (args : List (List α)) (processes : Int) (verbose : Bool) :
    Except (PyErr ε) (List β) :=
  jwmultithreaded.multithread_failsafe fn args PoolClass.ThreadPool processes 1 1
    verbose

/-- The default value of the args parameter shared by every dispatch function
in the source: args=[[]], a list holding exactly one empty work item. -/
def argsDefault {α : Type} : List (List α) := [[]]

/-- square(x) = x * x, the example function of the spec scenario; applying it
to anything other than exactly one positional argument raises TypeError. -/
def square : List Int → Except String Int
  | [x] => Except.ok (x * x)
  | _ => Except.error "TypeError"

/-- reciprocal(x) = 1 / x, the example function of the failsafe scenario,
over exact rationals: 1/1 and 1/2 are exactly representable in binary
floating point, so the Python results 1.0 and 0.5 coincide with the rational
values 1 and 1/2. Division by zero raises ZeroDivisionError; applying to
anything other than exactly one positional argument raises TypeError. -/
def reciprocal : List ℚ → Except String ℚ
  | [x] => if x = 0 then Except.error "ZeroDivisionError" else Except.ok (1 / x)
  | _ => Except.error "TypeError"

/-! Helper lemmas shared by the claim theorems. -/

/-- The runtime type of a pool class object is never the class Pool itself, so
the introspection test of the source is false for every pool class. -/
theorem typeOf_beq_pool (c : PoolClass) :
    (typeOf c == PyType.poolClass PoolClass.Pool) = false := rfl

/-- Constructing a pool without the maxtasksperchild keyword succeeds for a
positive worker count and records maxtasksperchild as None. -/
theorem constructPool_none_ok (cls : PoolClass) (p : Int) (hp : 1 ≤ p) :
    constructPool cls p none
      = (Except.ok ⟨cls, p, none⟩ : Except (PyErr ε) PoolHandle) := by
  have h2 : ¬ p < 1 := by omega
  simp [constructPool, h2]

/-- Constructing a pool with a non-positive worker count fails with the
configuration error before any worker exists. -/
theorem constructPool_none_configError (cls : PoolClass) (p : Int)
    (hp : p ≤ 0) :
    constructPool cls p none
      = (Except.error PyErr.configError : Except (PyErr ε) PoolHandle) := by
  have h2 : p < 1 := by omega
  simp [constructPool, h2]

/-- The pool construction of multithread always takes the else branch, so the
pool is always built as pool_type(processes), without maxtasksperchild. -/
theorem multithreadPoolOf_eq (pt : PoolClass) (p : Int) (m : Nat) :
    multithreadPoolOf pt p m
      = (constructPool pt p none : Except (PyErr ε) PoolHandle) := by
  simp [multithreadPoolOf, typeOf_beq_pool]

/-- With a positive worker count, multithread reduces to starmap over the pool
constructed as pool_type(processes). -/
theorem multithread_eq_starmap (fn : List α → Except ε β)
    (args : List (List α)) (pt : PoolClass) (p : Int) (m c : Nat)
    (hp : 1 ≤ p) :
    multithread fn args pt p m c = PoolHandle.starmap ⟨pt, p, none⟩ fn args c := by
  rw [multithread, multithreadPoolOf_eq, constructPool_none_ok pt p hp]

/-- With a positive worker count, multithread_failsafe reduces to the
collection loop over the per-item outcomes. -/
theorem multithread_failsafe_eq_collect (fn : List α → Except ε β)
    (args : List (List α)) (pt : PoolClass) (p : Int) (c : Nat) (v : Bool)
    (hp : 1 ≤ p) :
    multithread_failsafe fn args pt p c v
      = Except.ok (collectResults (args.map fn)) := by
  rw [multithread_failsafe]
  simp [typeOf_beq_pool, constructPool_none_ok pt p hp]

/-- starmap on a list of arguments on which fn always succeeds returns the
map of the value function over the arguments, in order. -/
theorem starmap_eq_map (pool : PoolHandle) (fn : List α → Except ε β)
    (g : List α → β) (c : Nat) :
    ∀ args : List (List α), (∀ a ∈ args, fn a = Except.ok (g a)) →
      pool.starmap fn args c = Except.ok (args.map g)
  | [], _ => rfl
  | a :: rest, h => by
    have ha : fn a = Except.ok (g a) := h a (List.mem_cons_self a rest)
    have hrest := starmap_eq_map pool fn g c rest
      (fun x hx => h x (List.mem_cons_of_mem a hx))
    simp [PoolHandle.starmap, ha, hrest]

/-- starmap raises the first error in input order: if every argument before a
succeeds and fn a raises e, the whole call raises e. -/
theorem starmap_first_error (pool : PoolHandle) (fn : List α → Except ε β)
    (c : Nat) (a : List α) (e : ε) (post : List (List α)) :
    ∀ pre : List (List α), (∀ x ∈ pre, ∃ b, fn x = Except.ok b) →
      fn a = Except.error e →
      pool.starmap fn (pre ++ a :: post) c = Except.error (PyErr.raised e)
  | [], _, ha => by simp [PoolHandle.starmap, ha]
  | x :: pre, h, ha => by
    obtain ⟨b, hb⟩ := h x (List.mem_cons_self x pre)
    have ih := starmap_first_error pool fn c a e post pre
      (fun y hy => h y (List.mem_cons_of_mem x hy)) ha
    simp [PoolHandle.starmap, hb, ih]

/-- The collection loop keeps exactly the successful outcomes, in order. -/
theorem collectResults_eq_filterMap : ∀ l : List (Except ε β),
    collectResults l = l.filterMap Except.toOption
  | [] => rfl
  | Except.ok b :: rs => by
    simp [collectResults, collectResults_eq_filterMap rs, Except.toOption]
  | Except.error e :: rs => by
    simp [collectResults, collectResults_eq_filterMap rs, Except.toOption]

/-- When fn succeeds on every argument, the collection loop returns the map
of the value function over the arguments, in order. -/
theorem collectResults_map_ok (fn : List α → Except ε β) (g : List α → β) :
    ∀ args : List (List α), (∀ a ∈ args, fn a = Except.ok (g a)) →
      collectResults (args.map fn) = args.map g
  | [], _ => rfl
  | a :: rest, h => by
    have ha : fn a = Except.ok (g a) := h a (List.mem_cons_self a rest)
    have hrest := collectResults_map_ok fn g rest
      (fun x hx => h x (List.mem_cons_of_mem a hx))
    simp [collectResults, ha, hrest]

/-- When fn fails on every argument, the collection loop returns the empty
list. -/
theorem collectResults_all_error (fn : List α → Except ε β) :
    ∀ args : List (List α), (∀ a ∈ args, ∃ e, fn a = Except.error e) →
      collectResults (args.map fn) = []
  | [], _ => rfl
  | a :: rest, h => by
    obtain ⟨e, he⟩ := h a (List.mem_cons_self a rest)
    have hrest := collectResults_all_error fn rest
      (fun x hx => h x (List.mem_cons_of_mem a hx))
    simp [collectResults, he, hrest]

/-! Claim theorems. -/

/-- C1: the claim states that multithread applies maxtasksperchild to the
constructed pool for the process pool kind and does not forward it for the
thread pool kind. Evaluating the pool construction of multithread at both
kinds (one worker, maxtasksperchild 5) shows the parameter is forwarded for
NEITHER kind: the handle records None in both cases, because the test
type(pool_type) is Pool compares the metaclass of pool_type with Pool and is
always False. The thread half of the claim holds; the process half does not,
against the stated intent of the comment and the dead maxtasksperchild
parameter in the source. -/
theorem multithread_never_forwards_maxtasksperchild :
    multithreadPoolOf PoolClass.Pool 1 5
      = (Except.ok ⟨PoolClass.Pool, 1, none⟩ : Except (PyErr String) PoolHandle)
    ∧ multithreadPoolOf PoolClass.ThreadPool 1 5
      = (Except.ok ⟨PoolClass.ThreadPool, 1, none⟩
          : Except (PyErr String) PoolHandle) :=
  ⟨rfl, rfl⟩

/-- C2: the claim states that every deprecated instance method returns the
same result as the free function of the same name. At square over [[1], [2]]
(process kind, one worker, maxtasksperchild 1, chunk size 1, verbose true) the
instance method multithread_failsafe raises TypeError, because its loop
iterates the single non-iterable AsyncResult returned by starmap_async, while
the free function multithread_failsafe returns [1, 4]; this contradicts the
identical-behavior claim and the docstring of the method itself. -/
theorem class_failsafe_method_diverges :
    jwmultithreaded.multithread_failsafe square [[1], [2]] PoolClass.Pool 1 1 1
        true
      = Except.error (PyErr.typeError "MapResult object is not iterable")
    ∧ multithread_failsafe square [[1], [2]] PoolClass.Pool 1 1 true
      = Except.ok [1, 4] :=
  ⟨rfl, rfl⟩

/-- C3: for every fn that raises on no work item (witnessed by the value
function g), multithread returns fn applied to each work item unpacked as
positional arguments, in input order; in particular square over
[[1], [2], [3]] yields [1, 4, 9]. -/
theorem multithread_maps_in_order (fn : List α → Except ε β) (g : List α → β)
    (args : List (List α)) (pool_type : PoolClass) (processes : Int)
    (maxtasksperchild chunksize : Nat) (hp : 1 ≤ processes)
    (hok : ∀ a ∈ args, fn a = Except.ok (g a)) :
    multithread fn args pool_type processes maxtasksperchild chunksize
      = Except.ok (args.map g)
    ∧ multithread square [[1], [2], [3]] PoolClass.Pool 2 1 1
      = Except.ok [1, 4, 9] :=
  ⟨by
    rw [multithread_eq_starmap fn args pool_type processes maxtasksperchild
      chunksize hp]
    exact starmap_eq_map _ fn g chunksize args hok,
   rfl⟩

/-- Witness for C3 at square over [[2], [3]] with the thread pool kind. -/
theorem multithread_maps_in_order_witness :
    multithread square [[2], [3]] PoolClass.ThreadPool 1 1 1
      = Except.ok [4, 9]
    ∧ multithread square [[1], [2], [3]] PoolClass.Pool 2 1 1
      = Except.ok [1, 4, 9] :=
  multithread_maps_in_order square (fun a => a.headI * a.headI) [[2], [3]]
    PoolClass.ThreadPool 1 1 1 (le_refl 1)
    (by intro a ha; fin_cases ha <;> rfl)

/-- C4: when some work items make fn raise, failsafe dispatch returns exactly
the outcomes of the succeeding items, in submission order, with no placeholder
for failed items (the filterMap of the per-item outcomes); in particular
reciprocal over [[1], [0], [2]] with verbose false returns [1, 1/2], the
rationals the float results 1.0 and 0.5 denote. -/
theorem failsafe_keeps_successes_in_order (fn : List α → Except ε β)
    (args : List (List α)) (pool_type : PoolClass) (processes : Int)
    (chunksize : Nat) (hp : 1 ≤ processes)
    (hfail : ∃ a ∈ args, ∃ e, fn a = Except.error e) :
    multithread_failsafe fn args pool_type processes chunksize false
      = Except.ok ((args.map fn).filterMap Except.toOption)
    ∧ multithread_failsafe reciprocal [[1], [0], [2]] PoolClass.Pool 1 1 false
      = Except.ok [1, 1/2] :=
  ⟨by
    rw [multithread_failsafe_eq_collect fn args pool_type processes chunksize
      false hp, collectResults_eq_filterMap],
   by norm_num [multithread_failsafe, constructPool, collectResults,
     reciprocal, typeOf]⟩

/-- Witness for C4 at reciprocal over [[1], [0], [2]]. -/
theorem failsafe_keeps_successes_in_order_witness :
    multithread_failsafe reciprocal [[1], [0], [2]] PoolClass.ThreadPool 1 7
        false
      = Except.ok (([[1], [0], [2]].map reciprocal).filterMap Except.toOption)
    ∧ multithread_failsafe reciprocal [[1], [0], [2]] PoolClass.Pool 1 1 false
      = Except.ok [1, 1/2] :=
  failsafe_keeps_successes_in_order reciprocal [[1], [0], [2]]
    PoolClass.ThreadPool 1 7 (le_refl 1)
    ⟨[0], by norm_num, "ZeroDivisionError", by norm_num [reciprocal]⟩

/-- C5: with a valid worker count, multithread_failsafe and
safe_multithread_failsafe always return a result list, never an error raised
by an invocation of fn; when every item fails they return the empty list
rather than raising. -/
theorem failsafe_never_raises (fn : List α → Except ε β)
    (args : List (List α)) (pool_type : PoolClass) (processes : Int)
    (chunksize : Nat) (verbose : Bool) (hp : 1 ≤ processes) :
    (∃ rs, multithread_failsafe fn args pool_type processes chunksize verbose
      = Except.ok rs)
    ∧ (∃ rs, safe_multithread_failsafe fn args processes chunksize verbose
      = Except.ok rs)
    ∧ ((∀ a ∈ args, ∃ e, fn a = Except.error e) →
        multithread_failsafe fn args pool_type processes chunksize verbose
          = Except.ok []
        ∧ safe_multithread_failsafe fn args processes chunksize verbose
          = Except.ok []) := by
  have h1 := multithread_failsafe_eq_collect fn args pool_type processes
    chunksize verbose hp
  have h2 : safe_multithread_failsafe fn args processes chunksize verbose
      = Except.ok (collectResults (args.map fn)) :=
    multithread_failsafe_eq_collect fn args PoolClass.ThreadPool processes 1
      verbose hp
  refine ⟨⟨_, h1⟩, ⟨_, h2⟩, fun hall => ?_⟩
  rw [h1, h2, collectResults_all_error fn args hall]
  exact ⟨rfl, rfl⟩

/-- Witness for C5 at reciprocal over [[0]], an input on which every item
fails. -/
theorem failsafe_never_raises_witness :
    (∃ rs, multithread_failsafe reciprocal [[0]] PoolClass.Pool 1 1 true
      = Except.ok rs)
    ∧ (∃ rs, safe_multithread_failsafe reciprocal [[0]] 1 1 true
      = Except.ok rs)
    ∧ ((∀ a ∈ [[0]], ∃ e, reciprocal a = Except.error e) →
        multithread_failsafe reciprocal [[0]] PoolClass.Pool 1 1 true
          = Except.ok []
        ∧ safe_multithread_failsafe reciprocal [[0]] 1 1 true
          = Except.ok []) :=
  failsafe_never_raises reciprocal [[0]] PoolClass.Pool 1 1 true (le_refl 1)

/-- C6: when every work item before a makes fn succeed and a makes fn raise e,
multithread propagates that first error with its payload preserved, and
returns no partial result list. -/
theorem multithread_raises_first_error (fn : List α → Except ε β)
    (pre post : List (List α)) (a : List α) (e : ε) (pool_type : PoolClass)
    (processes : Int) (maxtasksperchild chunksize : Nat) (hp : 1 ≤ processes)
    (hpre : ∀ x ∈ pre, ∃ b, fn x = Except.ok b)
    (ha : fn a = Except.error e) :
    multithread fn (pre ++ a :: post) pool_type processes maxtasksperchild
        chunksize
      = Except.error (PyErr.raised e) := by
  rw [multithread_eq_starmap fn (pre ++ a :: post) pool_type processes
    maxtasksperchild chunksize hp]
  exact starmap_first_error _ fn chunksize a e post pre hpre ha

/-- Witness for C6 at reciprocal over [[1], [0], [2]], whose second item
divides by zero. -/
theorem multithread_raises_first_error_witness :
    multithread reciprocal [[1], [0], [2]] PoolClass.Pool 1 1 1
      = Except.error (PyErr.raised "ZeroDivisionError") :=
  multithread_raises_first_error reciprocal [[1]] [[2]] [0] "ZeroDivisionError"
    PoolClass.Pool 1 1 1 (le_refl 1)
    (by intro x hx; fin_cases hx; exact ⟨1, by norm_num [reciprocal]⟩)
    (by norm_num [reciprocal])

/-- C7: on a non-empty input on which fn never fails (value function g),
fail-fast and failsafe dispatch return the same list, namely fn applied to
each work item in input order, so the fail-fast output preserves input
order. -/
theorem failfast_failsafe_agree (fn : List α → Except ε β) (g : List α → β)
    (args : List (List α)) (pool_type : PoolClass) (processes : Int)
    (maxtasksperchild chunksize chunksize2 : Nat) (verbose : Bool)
    (hp : 1 ≤ processes) (hne : args ≠ [])
    (hok : ∀ a ∈ args, fn a = Except.ok (g a)) :
    multithread fn args pool_type processes maxtasksperchild chunksize
      = Except.ok (args.map g)
    ∧ multithread_failsafe fn args pool_type processes chunksize2 verbose
      = Except.ok (args.map g) := by
  constructor
  · rw [multithread_eq_starmap fn args pool_type processes maxtasksperchild
      chunksize hp]
    exact starmap_eq_map _ fn g chunksize args hok
  · rw [multithread_failsafe_eq_collect fn args pool_type processes chunksize2
      verbose hp, collectResults_map_ok fn g args hok]

/-- Witness for C7 at square over [[2], [3]]. -/
theorem failfast_failsafe_agree_witness :
    multithread square [[2], [3]] PoolClass.Pool 1 1 1 = Except.ok [4, 9]
    ∧ multithread_failsafe square [[2], [3]] PoolClass.Pool 1 2 false
      = Except.ok [4, 9] :=
  failfast_failsafe_agree square (fun a => a.headI * a.headI) [[2], [3]]
    PoolClass.Pool 1 1 1 2 false (le_refl 1) (by simp)
    (by intro a ha; fin_cases ha <;> rfl)

/-- C8: with a non-positive worker count, every one of the four dispatch
functions fails with the configuration error raised by pool construction, for
every fn and args, so no work item is ever run and no worker is spawned. -/
theorem nonpositive_workers_config_error (fn : List α → Except ε β)
    (args : List (List α)) (pool_type : PoolClass) (processes : Int)
    (maxtasksperchild chunksize : Nat) (verbose : Bool)
    (hp : processes ≤ 0) :
    multithread fn args pool_type processes maxtasksperchild chunksize
      = Except.error PyErr.configError
    ∧ safe_multithread fn args processes chunksize
      = Except.error PyErr.configError
    ∧ multithread_failsafe fn args pool_type processes chunksize verbose
      = Except.error PyErr.configError
    ∧ safe_multithread_failsafe fn args processes chunksize verbose
      = Except.error PyErr.configError := by
  have hc : ∀ cls : PoolClass, constructPool cls processes none
      = (Except.error PyErr.configError : Except (PyErr ε) PoolHandle) :=
    fun cls => constructPool_none_configError cls processes hp
  refine ⟨?_, ?_, ?_, ?_⟩ <;>
    simp [multithread, safe_multithread, multithread_failsafe,
      safe_multithread_failsafe, multithreadPoolOf_eq, typeOf_beq_pool, hc]

/-- Witness for C8 at square over [[1]] with zero workers. -/
theorem nonpositive_workers_config_error_witness :
    multithread square [[1]] PoolClass.Pool 0 1 1
      = Except.error PyErr.configError
    ∧ safe_multithread square [[1]] 0 1 = Except.error PyErr.configError
    ∧ multithread_failsafe square [[1]] PoolClass.Pool 0 1 true
      = Except.error PyErr.configError
    ∧ safe_multithread_failsafe square [[1]] 0 1 true
      = Except.error PyErr.configError :=
  nonpositive_workers_config_error square [[1]] PoolClass.Pool 0 1 1 true
    (le_refl 0)

/-- C9: the result of multithread_failsafe is the same for any two values of
chunk_size: the chunksize parameter is accepted but never read in this mode,
each work item being submitted as its own asynchronous unit via
apply_async. -/
theorem failsafe_chunksize_irrelevant (fn : List α → Except ε β)
    (args : List (List α)) (pool_type : PoolClass) (processes : Int)
    (chunksize1 chunksize2 : Nat) (verbose : Bool) :
    multithread_failsafe fn args pool_type processes chunksize1 verbose
      = multithread_failsafe fn args pool_type processes chunksize2 verbose :=
  rfl

/-- C10: with args left at its default [[]], a list holding one empty work
item, every one of the four dispatch functions invokes fn exactly once with
zero arguments: when fn [] = ok b, each returns the one-element list [b], not
the empty list. -/
theorem default_args_single_invocation (fn : List α → Except ε β) (b : β)
    (pool_type : PoolClass) (processes : Int)
    (maxtasksperchild chunksize : Nat) (verbose : Bool)
    (hp : 1 ≤ processes) (hb : fn [] = Except.ok b) :
    multithread fn argsDefault pool_type processes maxtasksperchild chunksize
      = Except.ok [b]
    ∧ safe_multithread fn argsDefault processes chunksize = Except.ok [b]
    ∧ multithread_failsafe fn argsDefault pool_type processes chunksize verbose
      = Except.ok [b]
    ∧ safe_multithread_failsafe fn argsDefault processes chunksize verbose
      = Except.ok [b] := by
  have hm : ∀ (pt : PoolClass) (m c : Nat),
      multithread fn argsDefault pt processes m c = Except.ok [b] := by
    intro pt m c
    rw [multithread_eq_starmap fn argsDefault pt processes m c hp]
    simp [argsDefault, PoolHandle.starmap, hb]
  have hf : ∀ (pt : PoolClass) (c : Nat),
      multithread_failsafe fn argsDefault pt processes c verbose
        = Except.ok [b] := by
    intro pt c
    rw [multithread_failsafe_eq_collect fn argsDefault pt processes c verbose
      hp]
    simp [argsDefault, collectResults, hb]
  exact ⟨hm pool_type maxtasksperchild chunksize,
    hm PoolClass.ThreadPool 1 chunksize, hf pool_type chunksize,
    hf PoolClass.ThreadPool 1⟩

/-- Witness for C10 at a zero-argument function returning 42. -/
theorem default_args_single_invocation_witness :
    multithread (fun _ : List Int => (Except.ok 42 : Except String Int))
        argsDefault PoolClass.Pool 1 1 1
      = Except.ok [42]
    ∧ safe_multithread (fun _ : List Int => (Except.ok 42 : Except String Int))
        argsDefault 1 1
      = Except.ok [42]
    ∧ multithread_failsafe
        (fun _ : List Int => (Except.ok 42 : Except String Int))
        argsDefault PoolClass.Pool 1 1 true
      = Except.ok [42]
    ∧ safe_multithread_failsafe
        (fun _ : List Int => (Except.ok 42 : Except String Int))
        argsDefault 1 1 true
      = Except.ok [42] :=
  default_args_single_invocation
    (fun _ : List Int => (Except.ok 42 : Except String Int))
    42 PoolClass.Pool 1 1 1 true (le_refl 1) rfl
